import Mathlib

/-!
Verification of the Sentinel stock-watch service (src/main.py) against its
natural-language specification.

The embedding models the SQLite `watchlist` table as a list of rows with
explicit rowids, the external collaborators (Google News RSS fetch, the LLM
annotator, the Twilio notifier, the LangGraph agent) as oracle functions
supplied per tick or per request, and each Python function of the source as a
pure Lean function on that state.  Python string methods `.upper()`,
`.strip()` and `.startswith` are implemented as structurally recursive
functions on character lists so that all definitions evaluate by `decide`.
-/

/-- Python `str.upper()`: uppercase every character. -/
def pyUpper (s : String) : String := ⟨s.data.map Char.toUpper⟩

/-- Python `str.strip()`: drop leading and trailing whitespace. -/
def pyStrip (s : String) : String :=
  ⟨((s.data.dropWhile Char.isWhitespace).reverse.dropWhile Char.isWhitespace).reverse⟩

/-- The topic normalization used by the store operations: `stock.upper().strip()`. -/
def normalizeStock (s : String) : String := pyStrip (pyUpper s)

/-- Python `phone.startswith('whatsapp:')`. -/
def startsWithWhatsapp (s : String) : Bool := "whatsapp:".data.isPrefixOf s.data

/-- One row of the `watchlist` table:
`(rowid, phone_number, stock_symbol, last_seen_link)`. -/
structure Row where
  rowid : Nat
  phone_number : String
  stock_symbol : String
  last_seen_link : String
deriving DecidableEq

/-- The `stocks.db` database: the `watchlist` rows plus the rowid counter
SQLite would use for the next insert. -/
structure DB where
  rows : List Row
  nextRowid : Nat
deriving DecidableEq

/-- One `<item>` of the fetched RSS feed (transient FeedItem). -/
structure FeedItem where
  title : String
  link : String
deriving DecidableEq

/-- Result string of `add_stock_to_watchlist` when the row already exists. -/
def alreadyInWatchlistMsg (stock : String) : String :=
  stock ++ " is already in your watchlist."

/-- Result string of `add_stock_to_watchlist` when the row was inserted. -/
def addedMsg (stock : String) : String :=
  "✅ Added " ++ stock ++ ". I\x27ll check for news every 10 mins."

/-- Result string of `remove_stock_from_watchlist` (returned unconditionally). -/
def stoppedTrackingMsg (stock : String) : String :=
  "🗑️ Stopped tracking " ++ stock ++ "."

/-- The `WHERE phone_number=? AND stock_symbol=?` match used by the store. -/
def matchesKey (phone stock : String) (r : Row) : Bool :=
  r.phone_number == phone && r.stock_symbol == stock

/-- `SELECT ... WHERE phone_number=? AND stock_symbol=?` returned a row. -/
def hasRow (db : DB) (phone stock : String) : Bool :=
  db.rows.any (matchesKey phone stock)

/-- Number of rows matching a (phone, stock) key. -/
def keyCount (db : DB) (phone stock : String) : Nat :=
  (db.rows.filter (matchesKey phone stock)).length

/-- `add_stock_to_watchlist(stock, phone_number)`: normalize the ticker,
check existence, insert with cursor "none" if absent; returns the reply
string together with the updated database. -/
def add_stock_to_watchlist (stock phone_number : String) (db : DB) : String × DB :=
  let stock := normalizeStock stock
  if hasRow db phone_number stock then
    (alreadyInWatchlistMsg stock, db)
  else
    (addedMsg stock,
      ⟨db.rows ++ [⟨db.nextRowid, phone_number, stock, "none"⟩], db.nextRowid + 1⟩)

/-- `remove_stock_from_watchlist(stock, phone_number)`: normalize the ticker,
delete every matching row, and return the fixed "Stopped tracking" string
(the source returns this string whether or not a row existed). -/
def remove_stock_from_watchlist (stock phone_number : String) (db : DB) : String × DB :=
  let stock := normalizeStock stock
  (stoppedTrackingMsg stock,
    ⟨db.rows.filter (fun r => !(matchesKey phone_number stock r)), db.nextRowid⟩)

/-- Outcome of the per-subscription feed fetch: `fetchError` covers any
exception raised by `requests.get`/parsing, `fetched items` is the list of
`<item>` elements found in the RSS response (possibly empty). -/
inductive FetchResult where
  | fetchError
  | fetched (items : List FeedItem)
deriving DecidableEq

/-- The external collaborators of one scraper tick, as oracles:
`fetch` keyed by stock symbol, `annotate` (the LLM, `none` = raised) keyed by
headline, `deliver` (the Twilio send, `false` = raised) keyed by message body
and target number. -/
structure TickEnv where
  fetch : String → FetchResult
  annotate : String → Option String
  deliver : String → String → Bool

/-- The fixed neutral placeholder label of `analyze_news_impact`. -/
def neutralFallback : String := "⚖️ NEUTRAL - Analysis unavailable"

/-- `analyze_news_impact(title)`: return the LLM response stripped, or the
neutral placeholder when the LLM call raised. -/
def analyze_news_impact (llmResult : Option String) : String :=
  match llmResult with
  | some content => pyStrip content
  | none => neutralFallback

/-- The notification body `f"🔔 *{stock} News*\n\n{impact}\n\n🔗 {link}"`. -/
def alertMessage (stock impact link : String) : String :=
  "🔔 *" ++ stock ++ " News*\n\n" ++ impact ++ "\n\n🔗 " ++ link

/-- The message body the tick sends for a given row and fetched item. -/
def rowMessage (env : TickEnv) (stock : String) (item : FeedItem) : String :=
  alertMessage stock (analyze_news_impact (env.annotate item.title)) item.link

/-- `phone if phone.startswith('whatsapp:') else f"whatsapp:{phone}"`. -/
def rowTarget (phone : String) : String :=
  if startsWithWhatsapp phone then phone else "whatsapp:" ++ phone

/-- `UPDATE watchlist SET last_seen_link=? WHERE rowid=?`. -/
def advanceCursor (db : DB) (rid : Nat) (link : String) : DB :=
  ⟨db.rows.map (fun r => if r.rowid == rid then ⟨r.rowid, r.phone_number, r.stock_symbol, link⟩ else r),
   db.nextRowid⟩

/-- A record of one accepted delivery: (target number, message body). -/
abbrev Sent := String × String

/-- The notify-and-advance path of the loop body: compose the message, call
the Twilio client (which may raise, modeled by `deliver` returning `false`,
in which case the exception is caught and the UPDATE never runs), and on
success advance the cursor to the item's link. -/
def notifyAndAdvance (env : TickEnv) (db : DB) (row : Row) (item : FeedItem) : DB × List Sent :=
  let msg := rowMessage env row.stock_symbol item
  let target := rowTarget row.phone_number
  if env.deliver msg target then
    (advanceCursor db row.rowid item.link, [(target, msg)])
  else
    (db, [])

/-- The body of `for row in rows:` in `scraper_loop`, for one snapshot row:
fetch the feed (failures caught), skip when no items, compare the newest
item's link to the snapshot cursor, and notify + advance when they differ. -/
def processRow (env : TickEnv) (db : DB) (row : Row) : DB × List Sent :=
  match env.fetch row.stock_symbol with
  | .fetchError => (db, [])
  | .fetched [] => (db, [])
  | .fetched (item :: _) =>
    if item.link != row.last_seen_link then notifyAndAdvance env db row item
    else (db, [])

/-- Fold of the loop body over the snapshot rows, threading the live
database and accumulating the accepted deliveries and the rowids attempted,
in snapshot order. -/
def tickGo (env : TickEnv) (db : DB) : List Row → DB × List Sent × List Nat
  | [] => (db, [], [])
  | row :: rest =>
    let step := processRow env db row
    let further := tickGo env step.1 rest
    (further.1, step.2 ++ further.2.1, row.rowid :: further.2.2)

/-- One full tick of `scraper_loop`: snapshot all rows, then run the loop
body on each.  Returns the database after the tick, the accepted deliveries,
and the rowids attempted. -/
def scraperTick (env : TickEnv) (db : DB) : DB × List Sent × List Nat :=
  tickGo env db db.rows

/-- The cursor stored in a row list for a rowid: `last_seen_link` of the
first row with that rowid, if any. -/
def cursorRows : List Row → Nat → Option String
  | [], _ => none
  | r :: rest, rid =>
    if r.rowid == rid then some r.last_seen_link else cursorRows rest rid

/-- The cursor stored for a rowid (`SELECT last_seen_link WHERE rowid=?`). -/
def cursorOf (db : DB) (rid : Nat) : Option String := cursorRows db.rows rid

/-- Split a character list on single spaces (auxiliary, structural). -/
def wordsAux : List Char → List Char → List (List Char)
  | [], acc => [acc.reverse]
  | c :: rest, acc =>
    if c = ' ' then acc.reverse :: wordsAux rest [] else wordsAux rest (c :: acc)

/-- The space-separated tokens of a string (empty tokens kept). -/
def spaceTokens (s : String) : List (List Char) := wordsAux s.data []

/-- Modelled from the spec: the format contract for annotation output,
`<sentiment-marker> <SENTIMENT-WORD> - <3to5-word summary>` (the shape the
LLM prompt demands; no code in the repository checks it).  The string must
tokenize as a nonempty marker, a nonempty sentiment word, a literal dash,
and three to five nonempty summary words. -/
def conformsShape (s : String) : Bool :=
  match spaceTokens s with
  | marker :: sentiment :: dash :: summary =>
    !marker.isEmpty && !sentiment.isEmpty && dash == ['-'] &&
      summary.all (fun w => !w.isEmpty) &&
      decide (3 ≤ summary.length) && decide (summary.length ≤ 5)
  | _ => false

/-- The fixed apologetic fallback reply of the `/bot` handler. -/
def fallbackReply : String :=
  "Sorry, I\x27m having trouble processing that request right now."

/-- The prompt `f"User Phone: {sender}\nUser Request: {incoming_msg}"`. -/
def buildPrompt (sender incoming : String) : String :=
  "User Phone: " ++ sender ++ "\nUser Request: " ++ incoming

/-- The HTTP response returned by the webhook handler. -/
structure HttpResponse where
  status : Nat
  content : String
  media_type : String
deriving DecidableEq

/-- Modelled from the spec: the text/XML reply envelope produced by the
messaging library around the reply text. -/
def messagingEnvelopeOpen : String :=
  "<?xml version=\"1.0\" encoding=\"UTF-8\"?><Response><Message>"

/-- Modelled from the spec: closing part of the reply envelope. -/
def messagingEnvelopeClose : String := "</Message></Response>"

/-- Modelled from the spec: the full reply envelope containing the text. -/
def messagingEnvelope (text : String) : String :=
  messagingEnvelopeOpen ++ text ++ messagingEnvelopeClose

/-- `POST /bot` handler `reply_whatsapp`: build the prompt, invoke the agent
(an oracle; `.error` models a raised exception, caught and replaced by the
fixed fallback string), wrap the reply text in the envelope, and answer with
status 200 and media type `application/xml`. -/
def reply_whatsapp (incoming_msg sender : String)
    (agent : String → Except String String) : HttpResponse :=
  let prompt := buildPrompt sender incoming_msg
  let ai_response :=
    match agent prompt with
    | .ok content => content
    | .error _ => fallbackReply
  ⟨200, messagingEnvelope ai_response, "application/xml"⟩

/-- The store mutations reachable through the code: subscribe, unsubscribe,
and the tick's cursor UPDATE by rowid. -/
inductive StoreOp where
  | addOp (stock phone : String)
  | removeOp (stock phone : String)
  | advanceOp (rid : Nat) (link : String)
deriving DecidableEq

/-- Apply one store mutation to the database. -/
def applyOp (db : DB) (op : StoreOp) : DB :=
  match op with
  | .addOp stock phone => (add_stock_to_watchlist stock phone db).2
  | .removeOp stock phone => (remove_stock_from_watchlist stock phone db).2
  | .advanceOp rid link => advanceCursor db rid link

/-- The freshly created (empty) database; SQLite rowids start at 1. -/
def emptyDB : DB := ⟨[], 1⟩

/-- Run a sequence of store mutations from the empty database. -/
def runOps (ops : List StoreOp) : DB := ops.foldl applyOp emptyDB

/-- The (subscriber, topic) key of a row. -/
def keyOf (r : Row) : String × String := (r.phone_number, r.stock_symbol)

/-- At most one row per (phone_number, stock_symbol) pair. -/
def UniqueKeys (db : DB) : Prop := (db.rows.map keyOf).Nodup

/-- A concrete environment for witnesses: the feed always answers with one
Tesla item, the LLM raises, delivery is accepted. -/
def envC6 : TickEnv :=
  ⟨fun _ => .fetched [⟨"Tesla beats estimates", "https://x/1"⟩], fun _ => none, fun _ _ => true⟩

/-- The concrete fetched item of `envC6`. -/
def itemC6 : FeedItem := ⟨"Tesla beats estimates", "https://x/1"⟩

/-- A fresh subscription row (cursor "none"). -/
def rowC6a : Row := ⟨1, "+1555", "TSLA", "none"⟩

/-- The same subscription row after the item was delivered. -/
def rowC6b : Row := ⟨1, "+1555", "TSLA", "https://x/1"⟩

/-- A tick environment whose delivery always raises. -/
def envFailDeliver : TickEnv :=
  ⟨fun _ => .fetched [⟨"Tesla beats estimates", "https://x/1"⟩], fun _ => none, fun _ _ => false⟩

/-- A tick environment where the AAPL feed raises and the TSLA feed returns
one item; delivery is accepted. -/
def envC3 : TickEnv :=
  ⟨fun s => if s == "TSLA" then .fetched [⟨"Tesla beats estimates", "https://x/1"⟩]
    else .fetchError,
   fun _ => none, fun _ _ => true⟩

/-- Snapshot row A whose feed fetch fails. -/
def rowC3a : Row := ⟨1, "+1555", "AAPL", "old"⟩

/-- Snapshot row B whose feed returns a new item. -/
def rowC3b : Row := ⟨2, "+1666", "TSLA", "none"⟩

/-! ### Helper lemmas -/

theorem filter_nil_of_any_eq_false {α : Type} {p : α → Bool} :
    ∀ {l : List α}, l.any p = false → l.filter p = []
  | [], _ => rfl
  | a :: l, h => by
    simp only [List.any_cons, Bool.or_eq_false_iff] at h
    simp [List.filter_cons, h.1, filter_nil_of_any_eq_false h.2]

theorem filter_not_self_of_any_eq_false {α : Type} {p : α → Bool} :
    ∀ {l : List α}, l.any p = false → l.filter (fun a => !(p a)) = l
  | [], _ => rfl
  | a :: l, h => by
    simp only [List.any_cons, Bool.or_eq_false_iff] at h
    simp [List.filter_cons, h.1, filter_not_self_of_any_eq_false h.2]

theorem hasRow_append_self (db : DB) (phone stock cur : String) (rid : Nat) :
    hasRow ⟨db.rows ++ [⟨rid, phone, stock, cur⟩], db.nextRowid + 1⟩ phone stock = true := by
  simp [hasRow, List.any_append, matchesKey]

theorem add_already {stock phone : String} {db : DB}
    (h : hasRow db phone (normalizeStock stock) = true) :
    add_stock_to_watchlist stock phone db = (alreadyInWatchlistMsg (normalizeStock stock), db) := by
  simp [add_stock_to_watchlist, h]

theorem add_new {stock phone : String} {db : DB}
    (h : hasRow db phone (normalizeStock stock) = false) :
    add_stock_to_watchlist stock phone db =
      (addedMsg (normalizeStock stock),
       ⟨db.rows ++ [⟨db.nextRowid, phone, normalizeStock stock, "none"⟩], db.nextRowid + 1⟩) := by
  simp [add_stock_to_watchlist, h]

/-- The key of a row matching a (phone, stock) filter is that key. -/
theorem keyOf_eq_of_matchesKey {phone stock : String} {r : Row}
    (h : matchesKey phone stock r = true) : keyOf r = (phone, stock) := by
  simp only [matchesKey, Bool.and_eq_true, beq_iff_eq] at h
  simp [keyOf, h.1, h.2]

/-- Every single store mutation preserves key uniqueness. -/
theorem uniqueKeys_applyOp (db : DB) (op : StoreOp) (h : UniqueKeys db) :
    UniqueKeys (applyOp db op) := by
  cases op with
  | addOp stock phone =>
    show UniqueKeys (add_stock_to_watchlist stock phone db).2
    cases hc : hasRow db phone (normalizeStock stock) with
    | true => rw [add_already hc]; exact h
    | false =>
      rw [add_new hc]
      show ((db.rows ++ [Row.mk db.nextRowid phone (normalizeStock stock) "none"]).map keyOf).Nodup
      rw [List.map_append]
      rw [List.nodup_append]
      refine ⟨h, List.nodup_singleton _, ?_⟩
      intro k hk hk1
      simp only [List.map_cons, List.map_nil, List.mem_singleton] at hk1
      subst hk1
      simp only [List.mem_map] at hk
      obtain ⟨r, hr, hkey⟩ := hk
      have hmatch : matchesKey phone (normalizeStock stock) r = true := by
        simp only [keyOf, Prod.mk.injEq] at hkey
        simp [matchesKey, hkey.1, hkey.2]
      have : hasRow db phone (normalizeStock stock) = true := by
        simp only [hasRow, List.any_eq_true]
        exact ⟨r, hr, hmatch⟩
      rw [hc] at this
      cases this
  | removeOp stock phone =>
    show UniqueKeys (remove_stock_from_watchlist stock phone db).2
    have hsub : ((db.rows.filter
        (fun r => !(matchesKey phone (normalizeStock stock) r))).map keyOf).Sublist
        (db.rows.map keyOf) :=
      (List.filter_sublist _).map keyOf
    exact h.sublist hsub
  | advanceOp rid link =>
    show UniqueKeys (advanceCursor db rid link)
    unfold UniqueKeys at h ⊢
    show ((db.rows.map (fun r =>
        if r.rowid == rid then Row.mk r.rowid r.phone_number r.stock_symbol link else r)).map
        keyOf).Nodup
    rw [List.map_map]
    have : (keyOf ∘ fun r =>
        if r.rowid == rid then Row.mk r.rowid r.phone_number r.stock_symbol link else r)
        = keyOf := by
      funext r
      by_cases hr : r.rowid = rid <;> simp [keyOf, hr]
    rw [this]
    exact h

theorem cursorRows_map_update_ne (rid rid2 : Nat) (link : String) (hne : rid ≠ rid2) :
    ∀ rows : List Row,
      cursorRows (rows.map (fun r => if r.rowid == rid2
          then Row.mk r.rowid r.phone_number r.stock_symbol link else r)) rid
        = cursorRows rows rid
  | [] => rfl
  | r :: rest => by
    simp only [List.map_cons]
    by_cases h2 : (r.rowid == rid2) = true
    · rw [if_pos h2]
      have hfalse : ¬(r.rowid == rid) = true := by
        simp only [beq_iff_eq] at h2 ⊢
        rw [h2]
        exact fun hh => hne hh.symm
      show cursorRows (Row.mk r.rowid r.phone_number r.stock_symbol link ::
        rest.map _) rid = cursorRows (r :: rest) rid
      unfold cursorRows
      rw [if_neg hfalse, if_neg hfalse]
      exact cursorRows_map_update_ne rid rid2 link hne rest
    · rw [if_neg h2]
      unfold cursorRows
      by_cases h1 : (r.rowid == rid) = true
      · rw [if_pos h1, if_pos h1]
      · rw [if_neg h1, if_neg h1]
        exact cursorRows_map_update_ne rid rid2 link hne rest

theorem cursorOf_advanceCursor_ne (db : DB) (rid rid2 : Nat) (link : String)
    (hne : rid ≠ rid2) :
    cursorOf (advanceCursor db rid2 link) rid = cursorOf db rid :=
  cursorRows_map_update_ne rid rid2 link hne db.rows

theorem cursorOf_processRow_ne (env : TickEnv) (db : DB) (row : Row) (rid : Nat)
    (hne : row.rowid ≠ rid) :
    cursorOf (processRow env db row).1 rid = cursorOf db rid := by
  cases hf : env.fetch row.stock_symbol with
  | fetchError => simp [processRow, hf]
  | fetched items =>
    cases items with
    | nil => simp [processRow, hf]
    | cons item rest =>
      simp only [processRow, hf]
      by_cases hl : (item.link != row.last_seen_link) = true
      · rw [if_pos hl]
        unfold notifyAndAdvance
        by_cases hd : env.deliver (rowMessage env row.stock_symbol item)
            (rowTarget row.phone_number) = true
        · simp only [hd, if_true]
          exact cursorOf_advanceCursor_ne db rid row.rowid item.link (fun hh => hne hh.symm)
        · simp only [eq_false_of_ne_true hd, Bool.false_eq_true, if_false]
      · rw [if_neg hl]

theorem processRow_eq_of_delivery_failure (env : TickEnv) (db : DB) (row : Row)
    (item : FeedItem) (rest : List FeedItem)
    (hfetch : env.fetch row.stock_symbol = .fetched (item :: rest))
    (hfail : env.deliver (rowMessage env row.stock_symbol item)
      (rowTarget row.phone_number) = false) :
    processRow env db row = (db, []) := by
  simp only [processRow, hfetch]
  by_cases hl : (item.link != row.last_seen_link) = true
  · rw [if_pos hl]
    unfold notifyAndAdvance
    simp only [hfail, Bool.false_eq_true, if_false]
  · rw [if_neg hl]

theorem cursorOf_tickGo_preserved (env : TickEnv) (rid : Nat) :
    ∀ (rows : List Row) (db : DB),
      (∀ row ∈ rows, ∀ d : DB, cursorOf (processRow env d row).1 rid = cursorOf d rid) →
      cursorOf (tickGo env db rows).1 rid = cursorOf db rid
  | [], _, _ => rfl
  | row :: rest, db, h => by
    show cursorOf (tickGo env (processRow env db row).1 rest).1 rid = cursorOf db rid
    rw [cursorOf_tickGo_preserved env rid rest (processRow env db row).1
      (fun r hr => h r (List.mem_cons_of_mem _ hr))]
    exact h row (List.mem_cons_self _ _) db

theorem cursorRows_of_mem_nodup :
    ∀ (rows : List Row) (r : Row), r ∈ rows → (rows.map Row.rowid).Nodup →
      cursorRows rows r.rowid = some r.last_seen_link
  | [], r, hmem, _ => absurd hmem (List.not_mem_nil r)
  | a :: rest, r, hmem, hnd => by
    rw [List.map_cons, List.nodup_cons] at hnd
    rcases List.mem_cons.mp hmem with heq | hmem2
    · subst heq
      unfold cursorRows
      rw [if_pos (by simp)]
    · have hane : ¬(a.rowid == r.rowid) = true := by
        simp only [beq_iff_eq]
        intro hh
        exact hnd.1 (hh ▸ List.mem_map_of_mem Row.rowid hmem2)
      unfold cursorRows
      rw [if_neg hane]
      exact cursorRows_of_mem_nodup rest r hmem2 hnd.2

theorem tickGo_attempts (env : TickEnv) :
    ∀ (rows : List Row) (db : DB), (tickGo env db rows).2.2 = rows.map Row.rowid
  | [], _ => rfl
  | row :: rest, db => by
    show row.rowid :: (tickGo env (processRow env db row).1 rest).2.2 = _
    rw [tickGo_attempts env rest (processRow env db row).1, List.map_cons]

theorem processRow_notify_succeeds (env : TickEnv) (db : DB) (row : Row)
    (item : FeedItem) (rest : List FeedItem)
    (hfetch : env.fetch row.stock_symbol = .fetched (item :: rest))
    (hnew : (item.link != row.last_seen_link) = true)
    (hdel : env.deliver (rowMessage env row.stock_symbol item)
      (rowTarget row.phone_number) = true) :
    processRow env db row =
      (advanceCursor db row.rowid item.link,
       [(rowTarget row.phone_number, rowMessage env row.stock_symbol item)]) := by
  simp only [processRow, hfetch]
  rw [if_pos hnew]
  unfold notifyAndAdvance
  simp only [hdel, if_true]

theorem processRow_skip_same_link (env : TickEnv) (db : DB) (row : Row)
    (item : FeedItem) (rest : List FeedItem)
    (hfetch : env.fetch row.stock_symbol = .fetched (item :: rest))
    (hsame : item.link = row.last_seen_link) :
    processRow env db row = (db, []) := by
  simp only [processRow, hfetch]
  rw [if_neg (by simp [hsame])]

theorem processRow_fetch_fail (env : TickEnv) (db : DB) (row : Row)
    (hfetch : env.fetch row.stock_symbol = .fetchError) :
    processRow env db row = (db, []) := by
  simp only [processRow, hfetch]

/-! ### Claim theorems -/

/-- C4: `add` normalizes the topic, checks existence first, inserts exactly one
row with cursor "none" when absent (returning the Added message), leaves the
store unchanged when present (returning the AlreadyExists message), and a
second identical call after a successful insert returns the AlreadyExists
message with exactly one matching row left. -/
theorem add_checks_existence_and_no_double_subscribe (stock phone : String) (db : DB) :
    (hasRow db phone (normalizeStock stock) = true →
       add_stock_to_watchlist stock phone db = (alreadyInWatchlistMsg (normalizeStock stock), db)) ∧
    (hasRow db phone (normalizeStock stock) = false →
       add_stock_to_watchlist stock phone db =
         (addedMsg (normalizeStock stock),
          ⟨db.rows ++ [⟨db.nextRowid, phone, normalizeStock stock, "none"⟩], db.nextRowid + 1⟩)) ∧
    (hasRow db phone (normalizeStock stock) = false →
       (add_stock_to_watchlist stock phone db).1 = addedMsg (normalizeStock stock) ∧
       (add_stock_to_watchlist stock phone (add_stock_to_watchlist stock phone db).2).1 =
         alreadyInWatchlistMsg (normalizeStock stock) ∧
       keyCount (add_stock_to_watchlist stock phone (add_stock_to_watchlist stock phone db).2).2
         phone (normalizeStock stock) = 1) := by
  refine ⟨fun h => add_already h, fun h => add_new h, fun h => ?_⟩
  rw [add_new h]
  have h2 : hasRow (⟨db.rows ++ [⟨db.nextRowid, phone, normalizeStock stock, "none"⟩],
      db.nextRowid + 1⟩ : DB) phone (normalizeStock stock) = true :=
    hasRow_append_self db phone (normalizeStock stock) "none" db.nextRowid
  refine ⟨rfl, ?_, ?_⟩
  · show (add_stock_to_watchlist stock phone _).1 = _
    rw [add_already h2]
  · show keyCount (add_stock_to_watchlist stock phone _).2 phone (normalizeStock stock) = 1
    rw [add_already h2]
    simp only [keyCount, List.filter_append]
    rw [filter_nil_of_any_eq_false h]
    simp [matchesKey]

/-- C4 witness: a fresh subscriber and topic on the empty store. -/
theorem add_checks_existence_and_no_double_subscribe_witness :
    (add_stock_to_watchlist "aapl" "+1555" emptyDB).1 = addedMsg (normalizeStock "aapl") ∧
    (add_stock_to_watchlist "aapl" "+1555"
        (add_stock_to_watchlist "aapl" "+1555" emptyDB).2).1 =
      alreadyInWatchlistMsg (normalizeStock "aapl") ∧
    keyCount (add_stock_to_watchlist "aapl" "+1555"
        (add_stock_to_watchlist "aapl" "+1555" emptyDB).2).2
      "+1555" (normalizeStock "aapl") = 1 :=
  (add_checks_existence_and_no_double_subscribe "aapl" "+1555" emptyDB).2.2 (by decide)

/-- C5 counterexample: `remove` returns the identical result string whether a
matching row existed (and was deleted) or not, so the result does not signal
which of the two branches occurred. -/
theorem remove_result_signals_nothing_counterexample :
    (remove_stock_from_watchlist "AAPL" "+1555" emptyDB).1 =
      (remove_stock_from_watchlist "AAPL" "+1555" (DB.mk [Row.mk 1 "+1555" "AAPL" "none"] 2)).1 ∧
    hasRow emptyDB "+1555" "AAPL" = false ∧
    hasRow (DB.mk [Row.mk 1 "+1555" "AAPL" "none"] 2) "+1555" "AAPL" = true ∧
    (remove_stock_from_watchlist "AAPL" "+1555" emptyDB).2 = emptyDB ∧
    (remove_stock_from_watchlist "AAPL" "+1555" (DB.mk [Row.mk 1 "+1555" "AAPL" "none"] 2)).2.rows
      = [] := by
  decide

/-- C5 amended: `remove` deletes every matching row when one exists and leaves
the store unchanged when none does, but it always returns the one fixed
"Stopped tracking" string, so the caller cannot tell which branch occurred. -/
theorem remove_deletes_and_returns_fixed_message (stock phone : String) (db : DB) :
    (remove_stock_from_watchlist stock phone db).1 = stoppedTrackingMsg (normalizeStock stock) ∧
    (remove_stock_from_watchlist stock phone db).2.rows =
      db.rows.filter (fun r => !(matchesKey phone (normalizeStock stock) r)) ∧
    (remove_stock_from_watchlist stock phone db).2.nextRowid = db.nextRowid ∧
    (hasRow db phone (normalizeStock stock) = false →
       (remove_stock_from_watchlist stock phone db).2 = db) := by
  refine ⟨rfl, rfl, rfl, fun h => ?_⟩
  show (⟨db.rows.filter _, db.nextRowid⟩ : DB) = db
  rw [filter_not_self_of_any_eq_false h]

/-- C5 amended witness: removing a topic never subscribed to returns the fixed
message and leaves the store untouched. -/
theorem remove_deletes_and_returns_fixed_message_witness :
    (remove_stock_from_watchlist "TSLA" "+1555" emptyDB).1 =
      stoppedTrackingMsg (normalizeStock "TSLA") ∧
    (remove_stock_from_watchlist "TSLA" "+1555" emptyDB).2 = emptyDB :=
  ⟨(remove_deletes_and_returns_fixed_message "TSLA" "+1555" emptyDB).1,
   (remove_deletes_and_returns_fixed_message "TSLA" "+1555" emptyDB).2.2.2 (by decide)⟩

/-- C10: `remove` filters rows by the same normalized (uppercased, trimmed)
topic key that `add` inserts, so removing with any spelling that normalizes
like the spelling used to subscribe deletes exactly the row `add` created. -/
theorem remove_normalizes_topic_like_add (t1 t2 phone : String) (db : DB) :
    ((remove_stock_from_watchlist t2 phone db).2.rows =
       db.rows.filter (fun r => !(matchesKey phone (normalizeStock t2) r))) ∧
    (normalizeStock t1 = normalizeStock t2 →
     hasRow db phone (normalizeStock t1) = false →
     (remove_stock_from_watchlist t2 phone (add_stock_to_watchlist t1 phone db).2).2.rows
       = db.rows) := by
  refine ⟨rfl, fun heq h => ?_⟩
  rw [add_new h]
  show ((⟨_, _⟩ : DB).rows.filter _) = db.rows
  simp only [List.filter_append]
  rw [← heq, filter_not_self_of_any_eq_false h]
  simp [matchesKey, ← heq]

/-- C10 witness: subscribing with " aapl " and unsubscribing with "AAPL"
restores the empty store. -/
theorem remove_normalizes_topic_like_add_witness :
    (remove_stock_from_watchlist "AAPL" "+1555"
        (add_stock_to_watchlist " aapl " "+1555" emptyDB).2).2.rows = [] :=
  (remove_normalizes_topic_like_add " aapl " "AAPL" "+1555" emptyDB).2 (by decide) (by decide)

/-- C7: `analyze_news_impact` is total (annotation never aborts the
notification): when the LLM call raises it returns the fixed neutral
placeholder, and whenever the LLM — whose boundary contract is to produce a
label of the required shape or fail — succeeds, the returned label conforms
to the `<sentiment-marker> <SENTIMENT-WORD> - <3to5-word summary>` shape;
every result is therefore a conforming label or the fixed placeholder. -/
theorem annotation_never_blocks_and_keeps_shape (llmResult : Option String) :
    (llmResult = none → analyze_news_impact llmResult = neutralFallback) ∧
    ((∀ s, llmResult = some s → conformsShape (pyStrip s) = true) →
       conformsShape (analyze_news_impact llmResult) = true ∨
         analyze_news_impact llmResult = neutralFallback) := by
  cases llmResult with
  | none => exact ⟨fun _ => rfl, fun _ => Or.inr rfl⟩
  | some s =>
    constructor
    · intro h
      cases h
    · intro h
      exact Or.inl (h s rfl)

/-- C7 witness: a raised LLM call yields the placeholder, and a conforming
LLM label is passed through conforming. -/
theorem annotation_never_blocks_and_keeps_shape_witness :
    analyze_news_impact none = neutralFallback ∧
    (conformsShape (analyze_news_impact (some "📈 BULLISH - Stock hits record high")) = true ∨
       analyze_news_impact (some "📈 BULLISH - Stock hits record high") = neutralFallback) :=
  ⟨(annotation_never_blocks_and_keeps_shape none).1 rfl,
   (annotation_never_blocks_and_keeps_shape (some "📈 BULLISH - Stock hits record high")).2
     (fun s hs => by cases hs; decide)⟩

/-- C8: the `/bot` handler always answers with HTTP status 200 and an XML
envelope containing the reply text: the agent's final message when the agent
call succeeds, and the fixed apologetic fallback string when the agent call
raises — the failure is never propagated as an exception or non-200 status. -/
theorem bot_reply_always_200_with_fallback (incoming_msg sender : String)
    (agent : String → Except String String) :
    (reply_whatsapp incoming_msg sender agent).status = 200 ∧
    (reply_whatsapp incoming_msg sender agent).media_type = "application/xml" ∧
    (∀ c, agent (buildPrompt sender incoming_msg) = .ok c →
       (reply_whatsapp incoming_msg sender agent).content = messagingEnvelope c) ∧
    (∀ e, agent (buildPrompt sender incoming_msg) = .error e →
       (reply_whatsapp incoming_msg sender agent).content = messagingEnvelope fallbackReply) ∧
    (∀ t, messagingEnvelope t = messagingEnvelopeOpen ++ t ++ messagingEnvelopeClose) := by
  refine ⟨?_, ?_, ?_, ?_, fun _ => rfl⟩ <;>
    cases h : agent (buildPrompt sender incoming_msg) <;> simp [reply_whatsapp, h]

/-- C8 witness: a crashed agent still gets a 200 response carrying the
fallback text in the envelope. -/
theorem bot_reply_always_200_with_fallback_witness :
    (reply_whatsapp "subscribe TSLA" "whatsapp:+1555"
        (fun _ => Except.error "agent down")).status = 200 ∧
    (reply_whatsapp "subscribe TSLA" "whatsapp:+1555"
        (fun _ => Except.error "agent down")).content = messagingEnvelope fallbackReply :=
  ⟨(bot_reply_always_200_with_fallback "subscribe TSLA" "whatsapp:+1555"
      (fun _ => Except.error "agent down")).1,
   (bot_reply_always_200_with_fallback "subscribe TSLA" "whatsapp:+1555"
      (fun _ => Except.error "agent down")).2.2.2.1 "agent down" rfl⟩

/-- C6: for a fetched newest item, the notify decision is purely the
inequality of its identifier against the stored cursor: equal means the
subscription is skipped (store and deliveries untouched), different — in
particular when the cursor is the sentinel "none" and the identifier is a
real link — means the engine proceeds to the notify-and-advance path. -/
theorem notify_decision_pure_identifier_inequality (env : TickEnv) (db : DB) (row : Row)
    (item : FeedItem) (rest : List FeedItem)
    (hfetch : env.fetch row.stock_symbol = .fetched (item :: rest)) :
    (item.link = row.last_seen_link → processRow env db row = (db, [])) ∧
    (item.link ≠ row.last_seen_link →
       processRow env db row = notifyAndAdvance env db row item) ∧
    (row.last_seen_link = "none" → item.link ≠ "none" →
       processRow env db row = notifyAndAdvance env db row item) := by
  refine ⟨fun h => ?_, fun h => ?_, fun hc h => ?_⟩
  · simp [processRow, hfetch, h]
  · simp [processRow, hfetch, h]
  · simp [processRow, hfetch, hc, h]

/-- C6 witness: the first fetch after subscribing (cursor "none") proceeds to
notify, and a fetch whose identifier equals the cursor is skipped. -/
theorem notify_decision_pure_identifier_inequality_witness :
    processRow envC6 (DB.mk [rowC6a] 2) rowC6a =
      notifyAndAdvance envC6 (DB.mk [rowC6a] 2) rowC6a itemC6 ∧
    processRow envC6 (DB.mk [rowC6b] 2) rowC6b = (DB.mk [rowC6b] 2, []) :=
  ⟨(notify_decision_pure_identifier_inequality envC6 (DB.mk [rowC6a] 2) rowC6a itemC6 []
      rfl).2.2 rfl (by decide),
   (notify_decision_pure_identifier_inequality envC6 (DB.mk [rowC6b] 2) rowC6b itemC6 []
      rfl).1 rfl⟩

/-- C9: every store state reachable from the empty store by any sequence of
`add`, `remove`, and cursor-advance operations has at most one row per
(phone_number, stock_symbol) pair. -/
theorem store_unique_key_invariant (ops : List StoreOp) : UniqueKeys (runOps ops) := by
  have go : ∀ (l : List StoreOp) (db : DB), UniqueKeys db → UniqueKeys (l.foldl applyOp db) := by
    intro l
    induction l with
    | nil => exact fun db h => h
    | cons op rest ih =>
      intro db h
      exact ih (applyOp db op) (uniqueKeys_applyOp db op h)
  exact go ops emptyDB (by simp [UniqueKeys, emptyDB])

/-- C1: when the feed returns an item whose identifier differs from the
stored cursor but the Twilio delivery call raises, the tick leaves that
subscription's dedup cursor unchanged — the UPDATE advancing it never runs,
so the same item is reprocessed on the next tick. -/
theorem scraper_no_cursor_advance_on_delivery_failure (env : TickEnv) (db : DB) (r : Row)
    (item : FeedItem) (rest : List FeedItem)
    (hmem : r ∈ db.rows)
    (hnd : (db.rows.map Row.rowid).Nodup)
    (hfetch : env.fetch r.stock_symbol = .fetched (item :: rest))
    (hnew : item.link ≠ r.last_seen_link)
    (hfail : env.deliver (rowMessage env r.stock_symbol item)
      (rowTarget r.phone_number) = false) :
    cursorOf (scraperTick env db).1 r.rowid = some r.last_seen_link := by
  have hbase : cursorOf db r.rowid = some r.last_seen_link :=
    cursorRows_of_mem_nodup db.rows r hmem hnd
  have hpres : ∀ row ∈ db.rows, ∀ d : DB,
      cursorOf (processRow env d row).1 r.rowid = cursorOf d r.rowid := by
    intro row hrow d
    by_cases heq : row.rowid = r.rowid
    · have hrr : row = r := List.inj_on_of_nodup_map hnd hrow hmem heq
      rw [hrr, processRow_eq_of_delivery_failure env d r item rest hfetch hfail]
    · exact cursorOf_processRow_ne env d row r.rowid heq
  rw [scraperTick, cursorOf_tickGo_preserved env r.rowid db.rows db hpres]
  exact hbase

/-- C1 witness: one fresh TSLA subscription, a new item, delivery raising;
the cursor is still "none" after the tick. -/
theorem scraper_no_cursor_advance_on_delivery_failure_witness :
    cursorOf (scraperTick envFailDeliver (DB.mk [rowC6a] 2)).1 1 = some "none" :=
  scraper_no_cursor_advance_on_delivery_failure envFailDeliver (DB.mk [rowC6a] 2)
    rowC6a itemC6 [] (by decide) (by decide) rfl (by decide) rfl

/-- C2: a subscription with cursor "none" whose feed returns the same item on
two consecutive ticks, with delivery accepted, yields exactly one
notification across the two ticks; the cursor equals the item's identifier
after tick 1, and tick 2 sends nothing and is a no-op on the store. -/
theorem scraper_dedup_idempotent_across_ticks (env : TickEnv) (r : Row) (nid : Nat)
    (item : FeedItem) (rest : List FeedItem)
    (hcur : r.last_seen_link = "none")
    (hfetch : env.fetch r.stock_symbol = .fetched (item :: rest))
    (hlink : item.link ≠ "none")
    (hdel : env.deliver (rowMessage env r.stock_symbol item)
      (rowTarget r.phone_number) = true) :
    (scraperTick env ⟨[r], nid⟩).2.1 =
      [(rowTarget r.phone_number, rowMessage env r.stock_symbol item)] ∧
    cursorOf (scraperTick env ⟨[r], nid⟩).1 r.rowid = some item.link ∧
    scraperTick env (scraperTick env ⟨[r], nid⟩).1 =
      ((scraperTick env ⟨[r], nid⟩).1, [], [r.rowid]) := by
  have hnew : (item.link != r.last_seen_link) = true := by
    rw [hcur, bne_iff_ne]
    exact hlink
  have hstep : processRow env ⟨[r], nid⟩ r =
      (advanceCursor ⟨[r], nid⟩ r.rowid item.link,
       [(rowTarget r.phone_number, rowMessage env r.stock_symbol item)]) :=
    processRow_notify_succeeds env ⟨[r], nid⟩ r item rest hfetch hnew hdel
  have hadv : advanceCursor ⟨[r], nid⟩ r.rowid item.link =
      ⟨[Row.mk r.rowid r.phone_number r.stock_symbol item.link], nid⟩ := by
    simp [advanceCursor]
  have hT1 : scraperTick env ⟨[r], nid⟩ =
      (⟨[Row.mk r.rowid r.phone_number r.stock_symbol item.link], nid⟩,
       [(rowTarget r.phone_number, rowMessage env r.stock_symbol item)], [r.rowid]) := by
    show tickGo env ⟨[r], nid⟩ [r] = _
    simp only [tickGo, hstep, hadv, List.append_nil]
  have hstep2 : processRow env
      ⟨[Row.mk r.rowid r.phone_number r.stock_symbol item.link], nid⟩
      (Row.mk r.rowid r.phone_number r.stock_symbol item.link) =
      (⟨[Row.mk r.rowid r.phone_number r.stock_symbol item.link], nid⟩, []) :=
    processRow_skip_same_link env _ _ item rest hfetch rfl
  refine ⟨by rw [hT1], ?_, ?_⟩
  · rw [hT1]
    simp [cursorOf, cursorRows]
  · rw [hT1]
    show tickGo env _ _ = _
    simp only [tickGo, hstep2, List.append_nil, List.nil_append]

/-- C2 witness: one TSLA subscription with the same fetched item on both
ticks and accepted delivery. -/
theorem scraper_dedup_idempotent_across_ticks_witness :
    (scraperTick envC6 (DB.mk [rowC6a] 2)).2.1 =
      [(rowTarget rowC6a.phone_number, rowMessage envC6 rowC6a.stock_symbol itemC6)] ∧
    cursorOf (scraperTick envC6 (DB.mk [rowC6a] 2)).1 rowC6a.rowid = some itemC6.link ∧
    scraperTick envC6 (scraperTick envC6 (DB.mk [rowC6a] 2)).1 =
      ((scraperTick envC6 (DB.mk [rowC6a] 2)).1, [], [rowC6a.rowid]) :=
  scraper_dedup_idempotent_across_ticks envC6 rowC6a 2 itemC6 [] rfl rfl (by decide) rfl

/-- C3: within one tick over a snapshot of subscriptions A then B, A's feed
fetch failing does not prevent B from being attempted: exactly one
notification (B's) is sent, B's cursor advances to the new identifier, A's
cursor is unchanged, and — in general — every subscription of the snapshot
is attempted exactly once per tick, in snapshot order. -/
theorem scraper_isolates_per_subscription_failure (env : TickEnv) (a b : Row) (nid : Nat)
    (item : FeedItem) (rest : List FeedItem)
    (hneid : a.rowid ≠ b.rowid)
    (hfa : env.fetch a.stock_symbol = .fetchError)
    (hfb : env.fetch b.stock_symbol = .fetched (item :: rest))
    (hnew : item.link ≠ b.last_seen_link)
    (hdel : env.deliver (rowMessage env b.stock_symbol item)
      (rowTarget b.phone_number) = true) :
    (scraperTick env ⟨[a, b], nid⟩).2.1 =
      [(rowTarget b.phone_number, rowMessage env b.stock_symbol item)] ∧
    cursorOf (scraperTick env ⟨[a, b], nid⟩).1 a.rowid = some a.last_seen_link ∧
    cursorOf (scraperTick env ⟨[a, b], nid⟩).1 b.rowid = some item.link ∧
    (scraperTick env ⟨[a, b], nid⟩).2.2 = [a.rowid, b.rowid] ∧
    (∀ (env2 : TickEnv) (db2 : DB), (scraperTick env2 db2).2.2 = db2.rows.map Row.rowid) := by
  have hstepA : processRow env ⟨[a, b], nid⟩ a = (⟨[a, b], nid⟩, []) :=
    processRow_fetch_fail env ⟨[a, b], nid⟩ a hfa
  have hstepB : processRow env ⟨[a, b], nid⟩ b =
      (advanceCursor ⟨[a, b], nid⟩ b.rowid item.link,
       [(rowTarget b.phone_number, rowMessage env b.stock_symbol item)]) :=
    processRow_notify_succeeds env ⟨[a, b], nid⟩ b item rest hfb
      (by rw [bne_iff_ne]; exact hnew) hdel
  have hadv : advanceCursor ⟨[a, b], nid⟩ b.rowid item.link =
      ⟨[a, Row.mk b.rowid b.phone_number b.stock_symbol item.link], nid⟩ := by
    simp [advanceCursor, hneid]
  have hT : scraperTick env ⟨[a, b], nid⟩ =
      (⟨[a, Row.mk b.rowid b.phone_number b.stock_symbol item.link], nid⟩,
       [(rowTarget b.phone_number, rowMessage env b.stock_symbol item)],
       [a.rowid, b.rowid]) := by
    show tickGo env ⟨[a, b], nid⟩ [a, b] = _
    simp only [tickGo, hstepA, hstepB, hadv, List.append_nil, List.nil_append]
  refine ⟨by rw [hT], ?_, ?_, by rw [hT], ?_⟩
  · rw [hT]
    simp [cursorOf, cursorRows]
  · rw [hT]
    simp [cursorOf, cursorRows, hneid]
  · intro env2 db2
    exact tickGo_attempts env2 db2.rows db2

/-- C3 witness: A's fetch fails, B gets the new item; only B is notified and
only B's cursor moves. -/
theorem scraper_isolates_per_subscription_failure_witness :
    (scraperTick envC3 (DB.mk [rowC3a, rowC3b] 3)).2.1 =
      [(rowTarget rowC3b.phone_number, rowMessage envC3 rowC3b.stock_symbol itemC6)] ∧
    cursorOf (scraperTick envC3 (DB.mk [rowC3a, rowC3b] 3)).1 rowC3a.rowid = some "old" ∧
    cursorOf (scraperTick envC3 (DB.mk [rowC3a, rowC3b] 3)).1 rowC3b.rowid = some itemC6.link := by
  have h := scraper_isolates_per_subscription_failure envC3 rowC3a rowC3b 3 itemC6 []
    (by decide) (by decide) (by decide) (by decide) rfl
  exact ⟨h.1, h.2.1, h.2.2.1⟩
